import Mathlib

/-!
Shallow embedding of the IS-08 channel-mapping conformance test suite
(IS0801Test.py, class IS0801Test).  Each test body is translated into a
Lean function over an environment record `Env` that supplies the device
state and the behaviour of the repository helper modules (GenericTest,
TestHelper, is08.inputs / outputs / active / activation / io) that are
external to the analysed source file.  Unhandled Python exceptions are
tracked explicitly, since several claims are about test bodies aborting
without a verdict.
-/

namespace IS08

/-- Verdicts the harness result object can produce; a test body ends by
returning one of these (source: `test.PASS()`, `test.FAIL(msg)`,
`test.NA(msg)`, `test.MANUAL()`). -/
inductive Verdict where
  | PASS
  | FAIL (msg : String)
  | NA (msg : String)
  | MANUAL
deriving DecidableEq

/-- Outcome of running one test body: a returned verdict, a raised
NMOSTestException (carrying a harness result), or an unhandled Python
exception (named by its Python class) that aborts the test body without
any verdict. -/
inductive Outcome where
  | verdict (v : Verdict)
  | raised (msg : String)
  | exn (name : String)
deriving DecidableEq

/-- Input resource as used by the test bodies: identifier, parent source
identifier (nullable), channel list, block size, reordering flag, and the
JSON object `assembleInputObject()` would return for it (opaque payload). -/
structure Input where
  id : String
  parent : Option String
  channels : List String
  blockSize : Nat
  reordering : Bool
  assembled : String
deriving DecidableEq

/-- Output resource as used by the test bodies: identifier, source
identifier, channel list, the optional `routable_inputs` entry of its caps
object (`none` models the key being absent, so that reading it raises
KeyError), and the JSON object `assembleOutputObject()` would return. -/
structure Output where
  id : String
  sourceID : String
  channels : List String
  routableInputs : Option (List String)
  assembled : String
deriving DecidableEq

/-- Shape of the `/map/io` aggregate: an `inputs` object keyed by input id
and an `outputs` object keyed by output id, with opaque per-resource
payloads.  Python dict insertion order is kept. -/
structure IOAgg where
  inputs : List (String × String)
  outputs : List (String × String)
deriving DecidableEq

/-- Modelled from the spec: the device under test together with the helper
modules missing from the analysed source (is08.inputs, is08.outputs,
is08.active, is08.activation, is08.io).  Each field records what one
helper call observes or returns: `activeIndex`/`activeName` are the Active
resource queries for an (output id, channel) pair, `accepts` says whether
the device accepts an activation routing (input id, output id) so that
`checkReject` raises NMOSTestException exactly when it does, `findRoute`
is `findAcceptableTestRoute` for a given output id (`none` models its loud
failure), `fireRaises` whether `fireActivation` raises, `preState` and
`pendingState` the Active snapshots before and immediately after firing a
scheduled activation, and `assertCompleted n` whether
`assertActionCompleted` with `n` retries observes the action. -/
structure Env where
  inputs : List Input
  outputs : List Output
  ioJSON : IOAgg
  activeIndex : String → Nat → Option Nat
  activeName : String → Nat → Option String
  accepts : String → String → Bool
  findRoute : String → Option (String × String)
  fireRaises : Bool
  deleteRaises : Bool
  lockOk : Bool
  assertCompletedDefault : Bool
  preState : String
  pendingState : String
  assertCompleted : Nat → Bool

/-- Neutral environment used as a base for the concrete devices appearing
in counterexamples and witnesses. -/
def baseEnv : Env where
  inputs := []
  outputs := []
  ioJSON := { inputs := [], outputs := [] }
  activeIndex := fun _ _ => none
  activeName := fun _ _ => none
  accepts := fun _ _ => false
  findRoute := fun _ => none
  fireRaises := false
  deleteRaises := false
  lockOk := false
  assertCompletedDefault := true
  preState := ""
  pendingState := ""
  assertCompleted := fun _ => true

/-- Modelled from the spec: `TestHelper.compare_json`, the structural JSON
comparator used by the suite; the helper module is not part of the
analysed source file, so it is modelled as structural equality on the
embedded JSON values. -/
def compare_json {α : Type} [BEq α] (a b : α) : Bool := a == b

/-! test_07_unrouted_channels_null (source lines 138-163) -/

/-- Python inequality `inputChannelIndex != inputChannelName` between the
index (int or None) and the name (str or None): equal exactly when both
are None, since an int and a str never compare equal in Python 3. -/
def pyNeIndexName (idx : Option Nat) (nm : Option String) : Bool :=
  match idx, nm with
  | none, none => false
  | _, _ => true

/-- FAIL messages built inside the loop of test_07 (source lines 146-161);
one message per (output, channel) pair whose index/name are not both null
and not both non-null. -/
def test_07_discarded_failures (env : Env) : List String :=
  env.outputs.foldr (fun o acc =>
    ((List.range o.channels.length).filterMap (fun ch =>
      let inputChannelIndex := env.activeIndex o.id ch
      let inputChannelName := env.activeName o.id ch
      if inputChannelIndex.isNone || inputChannelName.isNone then
        if pyNeIndexName inputChannelIndex inputChannelName then
          some ("Both the channel index and name must be set" ++
                " to `null` when the a channel is not routed")
        else none
      else none)) ++ acc) []

/-- Model of test_07_unrouted_channels_null.  The loop builds FAIL results
with `test.FAIL(msg)` but never returns them (source line 161 has no
`return`), so control always falls through to `test.PASS()` at line 163. -/
def model_test_07 (env : Env) : Verdict :=
  let _discarded := test_07_discarded_failures env
  Verdict.PASS

/-! test_08_no_reentrant_loops (source lines 165-194) -/

/-- Message built at source lines 186-187 for a forbidden route. -/
def test_08_msg (i : Input) (o : Output) : String :=
  "It is possible to create a loop using re-entrant matricies between input "
    ++ i.id ++ " and output " ++ o.id

/-- Inner loop of source lines 175-182 for one output: the inputs whose
parent equals the source id of the output, paired with the output. -/
def reentrantCandidatesFor (inputs : List Input) (o : Output) :
    List (Input × Output) :=
  (inputs.filter (fun i => i.parent == some o.sourceID)).map (fun i => (i, o))

/-- The `forbiddenRoutes` list of source lines 170-182: outer loop over
outputs, inner loop over inputs, in program order. -/
def reentrantCandidates (env : Env) : List (Input × Output) :=
  env.outputs.foldr (fun o acc => reentrantCandidatesFor env.inputs o ++ acc) []

/-- Checking loop of source lines 184-194: first route whose output caps
lack `routable_inputs` (KeyError), or whose output id is NOT contained in
`routable_inputs`, returns FAIL; if the whole list passes, PASS. -/
def test_08_checkRoutes : List (Input × Output) → Verdict
  | [] => Verdict.PASS
  | (i, o) :: rest =>
    match o.routableInputs with
    | none => Verdict.FAIL (test_08_msg i o)
    | some routableInputs =>
      if !(routableInputs.contains o.id) then Verdict.FAIL (test_08_msg i o)
      else test_08_checkRoutes rest

/-- Model of test_08_no_reentrant_loops. -/
def model_test_08 (env : Env) : Verdict :=
  test_08_checkRoutes (reentrantCandidates env)

/-! test_01_io_content_match (source lines 46-66) -/

/-- Python dict item assignment `d[k] = v`: replace the value in place if
the key is present, otherwise append the new pair. -/
def dictInsert {V : Type} : List (String × V) → String → V → List (String × V)
  | [], k, v => [(k, v)]
  | (k', v') :: rest, k, v =>
    if k' = k then (k, v) :: rest else (k', v') :: dictInsert rest k v

/-- The `mockIoResource` built at source lines 55-61: every input object
under `inputs` keyed by input id, every output object under `outputs`
keyed by output id, in list order. -/
def mockIoResource (env : Env) : IOAgg where
  inputs := env.inputs.foldl (fun d i => dictInsert d i.id i.assembled) []
  outputs := env.outputs.foldl (fun d o => dictInsert d o.id o.assembled) []

/-- The reconstruction exactly as the claim words it: a direct map from
each individual resource to a keyed entry (spec side of the round-trip). -/
def specReconstruction (env : Env) : IOAgg where
  inputs := env.inputs.map (fun i => (i.id, i.assembled))
  outputs := env.outputs.map (fun o => (o.id, o.assembled))

/-- Model of test_01_io_content_match. -/
def model_test_01 (env : Env) : Verdict :=
  if compare_json (mockIoResource env) env.ioJSON then Verdict.PASS
  else Verdict.FAIL "IO Resource does not correctly reflect the API resources"

/-! test_13_violate_routing_constraints_rejected (source lines 225-272) -/

/-- Python `list.remove(x)`: drop the first occurrence of `x`, or `none`
when `x` is absent, which in the source raises an unhandled ValueError. -/
def pyRemove : List String → String → Option (List String)
  | [], _ => none
  | y :: ys, x => if y = x then some ys else (pyRemove ys x).map (y :: ·)

/-- Sequential removal loop of source lines 256-257: remove each
allow-listed id from the copied input id list, propagating ValueError. -/
def pyRemoveAll : List String → List String → Option (List String)
  | l, [] => some l
  | l, x :: xs =>
    match pyRemove l x with
    | none => none
    | some l' => pyRemoveAll l' xs

/-- The `constrainedOutputList` of source lines 230-243: outputs whose
caps object has a `routable_inputs` entry, paired with that entry. -/
def constrainedOutputs (env : Env) : List (Output × List String) :=
  env.outputs.filterMap (fun o => o.routableInputs.map (fun ris => (o, ris)))

/-- FAIL message of source lines 268-270.  The second placeholder uses the
stale loop variable `outputInstance`, which at that point holds the last
output of the device list, not the constrained output under test. -/
def test_13_msg (inputID lastOutputID : String) : String :=
  "Was able to create a forbidden route between input " ++ inputID ++
    " and output " ++ lastOutputID ++ " despite routing constraint."

/-- Main loop of source lines 253-272 over the constrained outputs.  For
each one the allow-listed ids are removed from the input id list
(ValueError aborts the test), and if any forbidden route remains an
activation for the first one is submitted: `checkReject` raises
NMOSTestException exactly when the device accepts it, which the source
catches and converts into FAIL.  After the loop the source returns
NA at line 272; no PASS return exists. -/
def test_13_loop (env : Env) (inputIDList : List String) (lastOutputID : String) :
    List (Output × List String) → Outcome
  | [] => Outcome.verdict (Verdict.NA "Could not test - no route is forbidden.")
  | (o, routableInputs) :: rest =>
    match pyRemoveAll inputIDList routableInputs with
    | none => Outcome.exn "ValueError"
    | some forbiddenRoutes =>
      match forbiddenRoutes with
      | [] => test_13_loop env inputIDList lastOutputID rest
      | f :: _ =>
        if env.accepts f o.id then
          Outcome.verdict (Verdict.FAIL (test_13_msg f lastOutputID))
        else test_13_loop env inputIDList lastOutputID rest

/-- Model of test_13_violate_routing_constraints_rejected. -/
def model_test_13 (env : Env) : Outcome :=
  let cs := constrainedOutputs env
  if cs.length = 0 then
    Outcome.verdict (Verdict.NA "Could not test - no outputs have routing constraints set.")
  else
    test_13_loop env (env.inputs.map Input.id)
      ((env.outputs.getLast?.map Output.id).getD "") cs

/-- Decidable statement that every constrained output has an allow-list
whose ids can all be removed, in order, from the input id list (the
precondition under which no ValueError can occur in test_13). -/
def allowlistOk (env : Env) : Bool :=
  (constrainedOutputs env).all
    (fun p => (pyRemoveAll (env.inputs.map Input.id) p.2).isSome)

/-- True exactly when an outcome is a returned verdict. -/
def isVerdict : Outcome → Bool
  | Outcome.verdict _ => true
  | _ => false

/-! test_14_reordering_constraint (source lines 274-345) -/

/-- Model of test_14_reordering_constraint.  The NA guard of source lines
283-289 is faithful; past it, the first filter loop evaluates
`len(inputInstance.getChannelList)` at source line 296, where
`getChannelList` is a bound method object and not a list, so `len` raises
an unhandled TypeError before any activation is submitted. -/
def model_test_14 (env : Env) : Outcome :=
  let constrainedInputs := env.inputs.filter (fun i => !i.reordering)
  if constrainedInputs.isEmpty then
    Outcome.verdict (Verdict.NA "No inputs prevent re-ordering.")
  else Outcome.exn "TypeError"

/-! test_15_block_constraint (source lines 347-376) -/

/-- Model of test_15_block_constraint.  The NA guard of source lines
353-361 is faithful; past it, source line 364 binds `output` to the list
returned by `getRoutableOutputs()` and source line 367 reads `output.id`,
so an unhandled AttributeError is raised before any activation is
submitted. -/
def model_test_15 (env : Env) : Outcome :=
  let constrainedInputs := env.inputs.filter (fun i => i.blockSize > 1)
  if constrainedInputs.isEmpty then
    Outcome.verdict (Verdict.NA "No inputs constrain by block.")
  else Outcome.exn "AttributeError"

/-! test_02, test_05, test_06 and check_delayed_activation -/

/-- Model of test_02_immediate_activation (source lines 68-80).  With an
empty output list the subscript `outputList[0]` at line 73 raises an
unhandled IndexError; otherwise the acceptable route is found (loud
failure raises), the activation fired, and `assertActionCompleted` with
the default retry count decides the outcome. -/
def model_test_02 (env : Env) : Outcome :=
  match env.outputs with
  | [] => Outcome.exn "IndexError"
  | o :: _ =>
    match env.findRoute o.id with
    | none => Outcome.raised "no acceptable test route"
    | some _ =>
      if env.fireRaises then Outcome.raised "activation submission failed"
      else if env.assertCompletedDefault then Outcome.verdict Verdict.PASS
      else Outcome.raised "action not completed"

/-- Model of test_05_delete_activations (source lines 100-121).
`Active().unrouteAll()` runs first; with an empty output list the
subscript at line 106 then raises an unhandled IndexError. -/
def model_test_05 (env : Env) : Outcome :=
  match env.outputs with
  | [] => Outcome.exn "IndexError"
  | o :: _ =>
    match env.findRoute o.id with
    | none => Outcome.raised "no acceptable test route"
    | some _ =>
      if env.fireRaises then Outcome.raised "activation submission failed"
      else if env.deleteRaises then Outcome.raised "delete failed"
      else Outcome.verdict Verdict.PASS

/-- Model of test_06_locking_response (source lines 123-136); with an
empty output list the subscript at line 128 raises an unhandled
IndexError, otherwise `checkLock` passes exactly when the device answers
the conflicting request with status 423. -/
def model_test_06 (env : Env) : Outcome :=
  match env.outputs with
  | [] => Outcome.exn "IndexError"
  | o :: _ =>
    match env.findRoute o.id with
    | none => Outcome.raised "no acceptable test route"
    | some _ =>
      if env.fireRaises then Outcome.raised "activation submission failed"
      else if env.lockOk then Outcome.verdict Verdict.PASS
      else Outcome.raised "lock response was not 423"

/-- Result of check_delayed_activation: it either returns normally, raises
an NMOSTestException (as at source lines 393 and 396-398, or from the
bounded polling), or aborts on an unhandled Python exception. -/
inductive DelayedResult where
  | completed
  | raised (msg : String)
  | exn (name : String)
deriving DecidableEq

/-- Model of check_delayed_activation (source lines 378-403): unroute all,
snapshot the Active resource, take `outputList[0]` (IndexError when the
list is empty), fire the scheduled activation (re-raising a submission
failure), snapshot again, raise FAIL when the two snapshots are not
structurally equal, and only then poll `assertActionCompleted` with
`retries=5`. -/
def model_check_delayed_activation (env : Env) : DelayedResult :=
  let preActivationState := env.preState
  match env.outputs with
  | [] => DelayedResult.exn "IndexError"
  | o :: _ =>
    match env.findRoute o.id with
    | none => DelayedResult.raised "no acceptable test route"
    | some _ =>
      if env.fireRaises then DelayedResult.raised "activation submission failed"
      else
        let pendingState := env.pendingState
        if !compare_json preActivationState pendingState then
          DelayedResult.raised "Scheduled Activation completed immediately"
        else if env.assertCompleted 5 then DelayedResult.completed
        else DelayedResult.raised "action not completed within retries"

/-- Model of test_03_relative_activation (source lines 82-89): delegates
to check_delayed_activation with a relative offset and returns PASS when
it completes. -/
def model_test_03 (env : Env) : Outcome :=
  match model_check_delayed_activation env with
  | DelayedResult.completed => Outcome.verdict Verdict.PASS
  | DelayedResult.raised m => Outcome.raised m
  | DelayedResult.exn e => Outcome.exn e

/-- Model of test_04_absolute_activation (source lines 91-98): delegates
to check_delayed_activation with an absolute TAI timestamp and returns
PASS when it completes. -/
def model_test_04 (env : Env) : Outcome :=
  match model_check_delayed_activation env with
  | DelayedResult.completed => Outcome.verdict Verdict.PASS
  | DelayedResult.raised m => Outcome.raised m
  | DelayedResult.exn e => Outcome.exn e

/-! Statement-order traces of the fifteen test bodies, used for the claim
about the process-wide configuration.  `setTest` is the assignment
`globalConfig.test = test`, `api` is a call that interacts with the API
through the helper modules, `manual` is `return test.MANUAL()`. -/

/-- One observable step of a test body. -/
inductive Step where
  | setTest
  | api (name : String)
  | manual
deriving DecidableEq

/-- The process-wide test-run configuration: the current test handle held
by `globalConfig.test` (a handle is identified by its test name). -/
structure Config where
  test : Option String
deriving DecidableEq

/-- Effect of running a trace on the configuration, for a test whose own
handle is `handle`: only `setTest` writes the configuration. -/
def runSteps (handle : String) : Config → List Step → Config
  | c, [] => c
  | _, Step.setTest :: rest => runSteps handle { test := some handle } rest
  | c, Step.api _ :: rest => runSteps handle c rest
  | c, Step.manual :: rest => runSteps handle c rest

/-- True when every API step of the trace executes with the configuration
already holding the test body's own handle, whatever the prior state. -/
def apiSeesOwnHandle (handle : String) : Config → List Step → Bool
  | _, [] => true
  | _, Step.setTest :: rest => apiSeesOwnHandle handle { test := some handle } rest
  | c, Step.api _ :: rest =>
    if c.test = some handle then apiSeesOwnHandle handle c rest else false
  | c, Step.manual :: rest => apiSeesOwnHandle handle c rest

/-- Overwrite at the start: the first statement of the body is the
assignment to the shared configuration. -/
def startsWithSetTest (t : List Step) : Bool :=
  t.head? == some Step.setTest

/-- True when the trace performs at least one API interaction. -/
def containsApi (t : List Step) : Bool :=
  t.any (fun s => match s with | Step.api _ => true | _ => false)

/-- Trace of test_01_io_content_match (source lines 46-66). -/
def test_01_trace : List Step :=
  [Step.setTest, Step.api "getInputList", Step.api "getOutputList",
   Step.api "getIOAsJSON", Step.api "assembleInputObject",
   Step.api "assembleOutputObject"]

/-- Trace of test_02_immediate_activation (source lines 68-80). -/
def test_02_trace : List Step :=
  [Step.setTest, Step.api "getOutputList", Step.api "findAcceptableTestRoute",
   Step.api "fireActivation", Step.api "assertActionCompleted"]

/-- Trace of test_03_relative_activation (source lines 82-89). -/
def test_03_trace : List Step :=
  [Step.setTest, Step.api "unrouteAll", Step.api "buildJSONObject",
   Step.api "getOutputList", Step.api "findAcceptableTestRoute",
   Step.api "fireActivation", Step.api "buildJSONObject",
   Step.api "assertActionCompleted"]

/-- Trace of test_04_absolute_activation (source lines 91-98). -/
def test_04_trace : List Step :=
  [Step.setTest, Step.api "get_TAI_time", Step.api "unrouteAll",
   Step.api "buildJSONObject", Step.api "getOutputList",
   Step.api "findAcceptableTestRoute", Step.api "fireActivation",
   Step.api "buildJSONObject", Step.api "assertActionCompleted"]

/-- Trace of test_05_delete_activations (source lines 100-121). -/
def test_05_trace : List Step :=
  [Step.setTest, Step.api "unrouteAll", Step.api "getOutputList",
   Step.api "findAcceptableTestRoute", Step.api "fireActivation",
   Step.api "delete"]

/-- Trace of test_06_locking_response (source lines 123-136). -/
def test_06_trace : List Step :=
  [Step.setTest, Step.api "getOutputList", Step.api "findAcceptableTestRoute",
   Step.api "fireActivation", Step.api "checkLock"]

/-- Trace of test_07_unrouted_channels_null (source lines 138-163). -/
def test_07_trace : List Step :=
  [Step.setTest, Step.api "getOutputList", Step.api "getChannelList",
   Step.api "getInputChannelIndex", Step.api "getInputChannelName"]

/-- Trace of test_08_no_reentrant_loops (source lines 165-194). -/
def test_08_trace : List Step :=
  [Step.setTest, Step.api "getOutputList", Step.api "getInputList",
   Step.api "getSourceID", Step.api "getParent", Step.api "getCaps"]

/-- Trace of test_09_props_name (source lines 196-198): the body is a bare
`return test.MANUAL()`; the configuration is never written. -/
def test_09_trace : List Step :=
  [Step.manual]

/-- Trace of test_10_props_description (source lines 200-202): the body is
a bare `return test.MANUAL()`; the configuration is never written. -/
def test_10_trace : List Step :=
  [Step.manual]

/-- Trace of test_11_inputs_have_channels (source lines 204-212). -/
def test_11_trace : List Step :=
  [Step.setTest, Step.api "getInputList", Step.api "getChannelList"]

/-- Trace of test_12_outputs_have_channels (source lines 214-223). -/
def test_12_trace : List Step :=
  [Step.setTest, Step.api "getOutputList", Step.api "getChannelList"]

/-- Trace of test_13_violate_routing_constraints_rejected (source lines
225-272). -/
def test_13_trace : List Step :=
  [Step.setTest, Step.api "getOutputList", Step.api "getCaps",
   Step.api "getInputList", Step.api "checkReject"]

/-- Trace of test_14_reordering_constraint (source lines 274-345). -/
def test_14_trace : List Step :=
  [Step.setTest, Step.api "getInputList", Step.api "getReordering",
   Step.api "getBlockSize", Step.api "getRoutableOutputs",
   Step.api "fireActivation"]

/-- Trace of test_15_block_constraint (source lines 347-376). -/
def test_15_trace : List Step :=
  [Step.setTest, Step.api "getInputList", Step.api "getBlockSize",
   Step.api "getRoutableOutputs", Step.api "fireActivation"]

/-- The fifteen test bodies of the suite, in declaration order. -/
def suiteTraces : List (List Step) :=
  [test_01_trace, test_02_trace, test_03_trace, test_04_trace,
   test_05_trace, test_06_trace, test_07_trace, test_08_trace,
   test_09_trace, test_10_trace, test_11_trace, test_12_trace,
   test_13_trace, test_14_trace, test_15_trace]

/-! Concrete devices used by counterexamples and witnesses. -/

/-- Input of a device with one re-entrant candidate pair: its parent is
the source feeding output `out1`. -/
def c1in : Input where
  id := "in1"
  parent := some "s1"
  channels := ["c0"]
  blockSize := 1
  reordering := true
  assembled := "inputObject1"

/-- Output of that device: its `routable_inputs` allow-list contains both
its own id and the re-entrant input id, so the re-entrant pair is NOT
excluded from the allow-list. -/
def c1out : Output where
  id := "out1"
  sourceID := "s1"
  channels := ["c0"]
  routableInputs := some ["out1", "in1"]
  assembled := "outputObject1"

/-- Device with exactly the re-entrant candidate pair (c1in, c1out). -/
def c1env : Env :=
  { baseEnv with inputs := [c1in], outputs := [c1out] }

/-- Output with one channel for the device exercising test_07. -/
def c2out : Output where
  id := "out0"
  sourceID := "s0"
  channels := ["left"]
  routableInputs := none
  assembled := "outputObject0"

/-- Device whose Active resource reports a null channel index together
with a non-null channel name for the single (output, channel) pair. -/
def c2env : Env :=
  { baseEnv with
      outputs := [c2out]
      activeName := fun _ _ => some "in0chan" }

/-- Constrained output whose allow-list is empty, so every input is a
forbidden route for it. -/
def c3out : Output where
  id := "out1"
  sourceID := "s1"
  channels := ["c0"]
  routableInputs := some []
  assembled := "outputObject1"

/-- The single input of the device exercising test_13. -/
def c3in : Input where
  id := "in1"
  parent := none
  channels := ["c0"]
  blockSize := 1
  reordering := true
  assembled := "inputObject1"

/-- Device with a forbidden route that the device rejects (`accepts` is
everywhere false, so `checkReject` never raises). -/
def c3env : Env :=
  { baseEnv with inputs := [c3in], outputs := [c3out] }

/-- Output for the scheduled-activation witness device. -/
def c4out : Output where
  id := "out1"
  sourceID := "s1"
  channels := ["c0"]
  routableInputs := none
  assembled := "outputObject1"

/-- Device whose Active snapshot changes immediately after submitting a
scheduled activation (pre and pending snapshots differ). -/
def c4env : Env :=
  { baseEnv with
      outputs := [c4out]
      findRoute := fun _ => some ("in1", "out1")
      preState := "pre"
      pendingState := "changed" }

/-- Input with `reordering = false` and enough channels for a cross-block
swap (block size 2, four channels). -/
def c5in : Input where
  id := "in1"
  parent := none
  channels := ["a", "b", "c", "d"]
  blockSize := 2
  reordering := false
  assembled := "inputObject1"

/-- Device with one reordering-constrained input. -/
def c5env : Env :=
  { baseEnv with inputs := [c5in] }

/-- Device whose only input allows reordering, so the NA guard fires. -/
def c5envNA : Env :=
  { baseEnv with inputs := [{ c5in with reordering := true }] }

/-- Input with `block_size` greater than one. -/
def c6in : Input where
  id := "in1"
  parent := none
  channels := ["a", "b"]
  blockSize := 2
  reordering := true
  assembled := "inputObject1"

/-- Device with one block-constrained input. -/
def c6env : Env :=
  { baseEnv with inputs := [c6in] }

/-- Device whose only input has block size one, so the NA guard fires. -/
def c6envNA : Env :=
  { baseEnv with inputs := [{ c6in with blockSize := 1 }] }

/-- Input of the round-trip witness device. -/
def c7in : Input where
  id := "in1"
  parent := none
  channels := ["c0"]
  blockSize := 1
  reordering := true
  assembled := "inputObject1"

/-- Output of the round-trip witness device. -/
def c7out : Output where
  id := "out1"
  sourceID := "s1"
  channels := ["c0"]
  routableInputs := none
  assembled := "outputObject1"

/-- Device whose `/map/io` aggregate matches the reconstruction from the
individual resources. -/
def c7env : Env :=
  { baseEnv with
      inputs := [c7in]
      outputs := [c7out]
      ioJSON := { inputs := [("in1", "inputObject1")],
                  outputs := [("out1", "outputObject1")] } }

/-- Constrained output processed first by test_13 on the device below:
empty allow-list, so its first forbidden route is submitted. -/
def c9outA : Output where
  id := "o1"
  sourceID := "sA"
  channels := ["c0"]
  routableInputs := some []
  assembled := "outputObjectA"

/-- Constrained output whose allow-list names an id that is not among the
device inputs, so the removal loop raises ValueError when reached. -/
def c9outB : Output where
  id := "o2"
  sourceID := "sB"
  channels := ["c0"]
  routableInputs := some ["ghost"]
  assembled := "outputObjectB"

/-- The single input of the devices exercising the test_13 precondition. -/
def c9in : Input where
  id := "in1"
  parent := none
  channels := ["c0"]
  blockSize := 1
  reordering := true
  assembled := "inputObject1"

/-- Device where the first constrained output triggers an early FAIL
return (the device accepts the forbidden route to `o1`) before the second
constrained output with the dangling allow-list id is ever reached. -/
def c9cex : Env :=
  { baseEnv with
      inputs := [c9in]
      outputs := [c9outA, c9outB]
      accepts := fun _ oid => oid == "o1" }

/-- Device whose only constrained output has a dangling allow-list id. -/
def c9bad : Env :=
  { baseEnv with inputs := [c9in], outputs := [c9outB] }

/-- Device satisfying the allow-list precondition: the only constrained
output allow-lists nothing and the device rejects the forbidden route. -/
def c9good : Env :=
  { baseEnv with inputs := [c9in], outputs := [c9outA] }

/-! Helper lemmas. -/

/-- Inserting a fresh key into a Python dict appends the pair. -/
theorem dictInsert_eq_append {V : Type} :
    ∀ (d : List (String × V)) (k : String) (v : V),
      k ∉ d.map Prod.fst → dictInsert d k v = d ++ [(k, v)]
  | [], _, _, _ => rfl
  | (k', v') :: rest, k, v, h => by
    have hne : k' ≠ k := by
      intro hk
      exact h (by simp [hk])
    have hrest : k ∉ rest.map Prod.fst := by
      intro hk
      exact h (by simp [hk])
    simp [dictInsert, hne, dictInsert_eq_append rest k v hrest]

/-- Folding dict insertions of pairwise-fresh keys over an accumulator
appends the corresponding pairs in order. -/
theorem foldl_dictInsert_eq_append {V α : Type} (key : α → String) (val : α → V) :
    ∀ (l : List α) (d : List (String × V)),
      (d.map Prod.fst ++ l.map key).Nodup →
      l.foldl (fun acc x => dictInsert acc (key x) (val x)) d
        = d ++ l.map (fun x => (key x, val x))
  | [], d, _ => by simp
  | x :: xs, d, h => by
    have hx : key x ∉ d.map Prod.fst := by
      rw [List.map_cons, List.nodup_append] at h
      intro hmem
      exact h.2.2 hmem (List.mem_cons_self _ _)
    have h' : ((d ++ [(key x, val x)]).map Prod.fst ++ xs.map key).Nodup := by
      rw [List.map_append]
      simpa [List.append_assoc] using h
    rw [List.foldl_cons, dictInsert_eq_append d (key x) (val x) hx,
      foldl_dictInsert_eq_append key val xs (d ++ [(key x, val x)]) h',
      List.map_cons]
    simp

/-- Under the allow-list precondition for every listed constrained output,
the test_13 loop always ends in a returned verdict. -/
theorem test_13_loop_verdict (env : Env) (ids : List String) (lastID : String) :
    ∀ cs : List (Output × List String),
      cs.all (fun p => (pyRemoveAll ids p.2).isSome) = true →
      isVerdict (test_13_loop env ids lastID cs) = true
  | [], _ => rfl
  | (o, ris) :: rest, h => by
    rw [List.all_cons, Bool.and_eq_true] at h
    obtain ⟨h1, h2⟩ := h
    rw [test_13_loop]
    cases hrm : pyRemoveAll ids ris with
    | none => rw [hrm] at h1; simp at h1
    | some forbidden =>
      cases forbidden with
      | nil => exact test_13_loop_verdict env ids lastID rest h2
      | cons f fs =>
        by_cases hacc : env.accepts f o.id
        · simp [hacc, isVerdict]
        · simp only [hacc, if_neg, Bool.false_eq_true, if_false]
          exact test_13_loop_verdict env ids lastID rest h2

/-- Once the configuration holds the test body's own handle, it keeps
holding it for the rest of the trace. -/
theorem apiSeesOwnHandle_stable (handle : String) :
    ∀ rest : List Step, apiSeesOwnHandle handle { test := some handle } rest = true
  | [] => rfl
  | s :: rest => by
    cases s <;> simp [apiSeesOwnHandle, apiSeesOwnHandle_stable handle rest]

/-! Claim theorems. -/

/-- C1: on a device with a re-entrant candidate pair whose input id is
contained in (hence not excluded from) the routable_inputs allow-list of
the output, test_08 returns PASS instead of the FAIL the claim requires:
the source checks the OUTPUT id for membership and fails on absence, the
opposite of excluding the re-entrant input. -/
theorem test_08_passes_included_reentrant_pair :
    reentrantCandidates c1env = [(c1in, c1out)] ∧
    (c1out.routableInputs.getD []).contains c1in.id = true ∧
    model_test_08 c1env = Verdict.PASS := by
  decide

/-- C2: on a device reporting a null channel index together with a
non-null channel name, the test_07 loop builds a FAIL result but never
returns it (source line 161 lacks `return`), so the test returns PASS
instead of the FAIL the claim requires. -/
theorem test_07_discards_fail_results :
    test_07_discarded_failures c2env ≠ [] ∧
    model_test_07 c2env = Verdict.PASS := by
  decide

/-- C3: on a device with a constrained output, a forbidden route, and a
device that rejects the forbidden submission, test_13 returns
NA with the message that no route is forbidden instead of the PASS the
claim requires: the source has no PASS return at all. -/
theorem test_13_rejection_yields_na :
    constrainedOutputs c3env = [(c3out, [])] ∧
    pyRemoveAll (c3env.inputs.map Input.id) [] = some ["in1"] ∧
    c3env.accepts "in1" "out1" = false ∧
    model_test_13 c3env =
      Outcome.verdict (Verdict.NA "Could not test - no route is forbidden.") := by
  decide

/-- C4: when the output list is non-empty, an acceptable route is found
and the submission does not raise, check_delayed_activation raises the
FAIL exception "Scheduled Activation completed immediately" whenever the
post-submission Active snapshot differs structurally from the
pre-submission one, and only when the snapshots are equal does it go on to
poll assertActionCompleted with a bound of exactly five retries. -/
theorem check_delayed_activation_compares_then_polls (env : Env) (o : Output)
    (a : String × String)
    (h1 : env.outputs.head? = some o)
    (h2 : env.findRoute o.id = some a)
    (h3 : env.fireRaises = false) :
    (compare_json env.preState env.pendingState = false →
      model_check_delayed_activation env =
        DelayedResult.raised "Scheduled Activation completed immediately") ∧
    (compare_json env.preState env.pendingState = true →
      model_check_delayed_activation env =
        (if env.assertCompleted 5 then DelayedResult.completed
         else DelayedResult.raised "action not completed within retries")) := by
  cases houts : env.outputs with
  | nil => rw [houts] at h1; exact absurd h1 (by simp)
  | cons o' rest =>
    rw [houts, List.head?_cons] at h1
    obtain rfl : o' = o := Option.some.inj h1
    refine ⟨fun hcp => ?_, fun hcp => ?_⟩ <;>
      simp [model_check_delayed_activation, houts, h2, h3, hcp]

/-- Witness for C4: on the concrete device whose pending snapshot differs
from the pre-submission snapshot, the FAIL exception is raised. -/
theorem check_delayed_activation_compares_then_polls_witness :
    model_check_delayed_activation c4env =
      DelayedResult.raised "Scheduled Activation completed immediately" :=
  (check_delayed_activation_compares_then_polls c4env c4out ("in1", "out1")
    rfl rfl rfl).1 rfl

/-- C5: test_14 returns NA when no input constrains reordering, but on a
device with a reordering-constrained input it aborts with an unhandled
TypeError from `len` applied to the bound method `getChannelList` (source
line 296) instead of submitting a cross-block activation and returning
PASS or FAIL. -/
theorem test_14_aborts_with_typeerror :
    model_test_14 c5envNA =
      Outcome.verdict (Verdict.NA "No inputs prevent re-ordering.") ∧
    model_test_14 c5env = Outcome.exn "TypeError" := by
  decide

/-- C6: test_15 returns NA when no input has block size above one, but on
a device with a block-constrained input it aborts with an unhandled
AttributeError from reading `.id` on the list returned by
`getRoutableOutputs()` (source lines 364-367) instead of submitting an
out-of-block route and returning PASS or FAIL. -/
theorem test_15_aborts_with_attributeerror :
    model_test_15 c6envNA =
      Outcome.verdict (Verdict.NA "No inputs constrain by block.") ∧
    model_test_15 c6env = Outcome.exn "AttributeError" := by
  decide

/-- C7: when resource ids are unambiguous, test_01 returns PASS exactly
when the `/map/io` aggregate structurally equals (per compare_json) the
reconstruction that places every individual input object under `inputs`
keyed by input id and every individual output object under `outputs`
keyed by output id, and returns FAIL otherwise. -/
theorem test_01_pass_iff_roundtrip (env : Env)
    (hin : (env.inputs.map Input.id).Nodup)
    (hout : (env.outputs.map Output.id).Nodup) :
    (model_test_01 env = Verdict.PASS ↔
      compare_json (specReconstruction env) env.ioJSON = true) ∧
    (compare_json (specReconstruction env) env.ioJSON = false →
      model_test_01 env =
        Verdict.FAIL "IO Resource does not correctly reflect the API resources") := by
  have hmock : mockIoResource env = specReconstruction env := by
    unfold mockIoResource specReconstruction
    have hi := foldl_dictInsert_eq_append Input.id Input.assembled env.inputs []
      (by simpa using hin)
    have ho := foldl_dictInsert_eq_append Output.id Output.assembled env.outputs []
      (by simpa using hout)
    simp only [List.nil_append] at hi ho
    rw [hi, ho]
  unfold model_test_01
  rw [hmock]
  cases hcp : compare_json (specReconstruction env) env.ioJSON with
  | true => simp [hcp]
  | false => simp [hcp]

/-- Witness for C7: on the concrete device whose aggregate matches the
reconstruction, the equivalence holds. -/
theorem test_01_pass_iff_roundtrip_witness :
    model_test_01 c7env = Verdict.PASS ↔
      compare_json (specReconstruction c7env) c7env.ioJSON = true :=
  (test_01_pass_iff_roundtrip c7env (by decide) (by decide)).1

/-- Counterexample for C8: test_09 is in the suite, its body does not
begin by overwriting the shared configuration, and running it leaves a
stale handle from a previous test in place. -/
theorem test_09_skips_config_overwrite :
    test_09_trace ∈ suiteTraces ∧
    startsWithSetTest test_09_trace = false ∧
    runSteps "test_09" { test := some "previous" } test_09_trace
      = { test := some "previous" } := by
  decide

/-- C8 (amended): in every test body that performs any API interaction,
the shared configuration is overwritten with the test body's own handle
before the first API interaction, whatever the prior configuration state;
test_09 and test_10 perform no API interaction and never write it. -/
theorem suite_api_sees_own_handle :
    ∀ handle : String, ∀ c : Config, ∀ t ∈ suiteTraces,
      apiSeesOwnHandle handle c t = true := by
  intro handle c t ht
  simp only [suiteTraces, List.mem_cons, List.not_mem_nil, or_false] at ht
  rcases ht with rfl | rfl | rfl | rfl | rfl | rfl | rfl | rfl | rfl | rfl |
    rfl | rfl | rfl | rfl | rfl <;>
    simp [test_01_trace, test_02_trace, test_03_trace, test_04_trace,
      test_05_trace, test_06_trace, test_07_trace, test_08_trace,
      test_09_trace, test_10_trace, test_11_trace, test_12_trace,
      test_13_trace, test_14_trace, test_15_trace,
      apiSeesOwnHandle, apiSeesOwnHandle_stable]

/-- Witness for C8: the first test body of the suite runs every API step
with its own handle installed, starting from an empty configuration. -/
theorem suite_api_sees_own_handle_witness :
    apiSeesOwnHandle "test_01" { test := none } test_01_trace = true :=
  suite_api_sees_own_handle "test_01" { test := none } test_01_trace (by decide)

/-- Counterexample for C9: test_13 can deliver a verdict even though a
constrained output allow-lists an id that is absent from the input id
list, because an earlier constrained output triggers the early FAIL
return before the dangling allow-list is reached. -/
theorem test_13_verdict_despite_bad_allowlist :
    isVerdict (model_test_13 c9cex) = true ∧ allowlistOk c9cex = false := by
  decide

/-- C9 (amended): test_13 returns a verdict whenever every constrained
output allow-list can be removed, in order and with multiplicity, from
the input id list; when a constrained output with a dangling allow-listed
id is reached before any early FAIL return, the removal raises an
unhandled ValueError and the test aborts without a verdict. -/
theorem test_13_allowlist_precondition :
    (∀ env : Env, allowlistOk env = true → isVerdict (model_test_13 env) = true) ∧
    model_test_13 c9bad = Outcome.exn "ValueError" := by
  constructor
  · intro env h
    unfold model_test_13
    by_cases hcs : (constrainedOutputs env).length = 0
    · simp [hcs, isVerdict]
    · simp only [hcs, if_neg, if_false]
      exact test_13_loop_verdict env _ _ _ h
  · decide

/-- Witness for C9: on the concrete device satisfying the allow-list
precondition, test_13 returns a verdict. -/
theorem test_13_allowlist_precondition_witness :
    isVerdict (model_test_13 c9good) = true :=
  test_13_allowlist_precondition.1 c9good (by decide)

/-- C10: on any device whose output list is empty, test_02, test_05,
test_06, check_delayed_activation, and through it test_03 and test_04,
all abort with an unhandled IndexError from the unguarded subscript
`outputList[0]` instead of returning a verdict. -/
theorem empty_outputlist_index_error (env : Env) (h : env.outputs = []) :
    model_test_02 env = Outcome.exn "IndexError" ∧
    model_test_05 env = Outcome.exn "IndexError" ∧
    model_test_06 env = Outcome.exn "IndexError" ∧
    model_check_delayed_activation env = DelayedResult.exn "IndexError" ∧
    model_test_03 env = Outcome.exn "IndexError" ∧
    model_test_04 env = Outcome.exn "IndexError" := by
  refine ⟨?_, ?_, ?_, ?_, ?_, ?_⟩ <;>
    simp [model_test_02, model_test_05, model_test_06, model_test_03,
      model_test_04, model_check_delayed_activation, h]

/-- Witness for C10: the neutral device has no outputs and every listed
test body aborts with IndexError on it. -/
theorem empty_outputlist_index_error_witness :
    model_test_02 baseEnv = Outcome.exn "IndexError" ∧
    model_test_05 baseEnv = Outcome.exn "IndexError" ∧
    model_test_06 baseEnv = Outcome.exn "IndexError" ∧
    model_check_delayed_activation baseEnv = DelayedResult.exn "IndexError" ∧
    model_test_03 baseEnv = Outcome.exn "IndexError" ∧
    model_test_04 baseEnv = Outcome.exn "IndexError" :=
  empty_outputlist_index_error baseEnv rfl

end IS08
